import Mathlib

/-!
Shallow embedding of `src/shaka/src/js/mse/video_element.cc`
(google/shaka-player-embedded): the HTMLVideoElement dual state machine
(ready state and pipeline status), its event scheduling, error recording,
and the source/playback control surface.

Collaborator calls (MediaSource, PipelineManager) are modelled as emitted
commands; scheduled events are collected in order into a list.
-/

namespace Shaka

/-- Event types scheduled by the element (subset of `EventType` used by
`video_element.cc`). -/
inductive EventType
  | LoadedMetaData
  | LoadedData
  | CanPlay
  | Waiting
  | ReadyStateChange
  | Emptied
  | Play
  | Playing
  | Pause
  | Seeking
  | Seeked
  | Ended
  | Error
  deriving DecidableEq, Fintype, Repr

/-- Media ready state, `media::MediaReadyState`: ordered enumeration with the
standard HTML numeric values 0..4, compared by value in the source. -/
inductive MediaReadyState
  | HAVE_NOTHING
  | HAVE_METADATA
  | HAVE_CURRENT_DATA
  | HAVE_FUTURE_DATA
  | HAVE_ENOUGH_DATA
  deriving DecidableEq, Fintype, Repr

/-- Numeric value of a ready state, as the C++ enum value used in `<`/`>=`
comparisons. -/
def MediaReadyState.toNat : MediaReadyState → Nat
  | .HAVE_NOTHING => 0
  | .HAVE_METADATA => 1
  | .HAVE_CURRENT_DATA => 2
  | .HAVE_FUTURE_DATA => 3
  | .HAVE_ENOUGH_DATA => 4

instance : LT MediaReadyState := ⟨fun a b => a.toNat < b.toNat⟩
instance : LE MediaReadyState := ⟨fun a b => a.toNat ≤ b.toNat⟩

instance (a b : MediaReadyState) : Decidable (a < b) :=
  inferInstanceAs (Decidable (a.toNat < b.toNat))
instance (a b : MediaReadyState) : Decidable (a ≤ b) :=
  inferInstanceAs (Decidable (a.toNat ≤ b.toNat))

/-- Pipeline status, `media::PipelineStatus`. -/
inductive PipelineStatus
  | Initializing
  | Playing
  | Paused
  | Stalled
  | SeekingPlay
  | SeekingPause
  | Ended
  | Errored
  deriving DecidableEq, Fintype, Repr

/-- `MediaError`: (code, message) pair stored in the element's `error` field.
`MEDIA_ERR_DECODE` is the standard HTML media error code 3. -/
structure MediaError where
  code : Nat
  message : String
  deriving DecidableEq, Repr

def MEDIA_ERR_DECODE : Nat := 3

/-- Commands issued to collaborators (MediaSource binding / PipelineManager),
recorded in emission order. -/
inductive Cmd
  | closeSource
  | openSource
  | setPipelineVolume (v : ℚ)
  | pipelinePlay
  | pipelinePause
  deriving DecidableEq, Repr

/-- The element state: the fields of `HTMLVideoElement` that the state
machine reads or writes (field names follow the C++ members). -/
structure VideoElement where
  ready_state : MediaReadyState
  autoplay : Bool
  loop : Bool
  pipeline_status_ : PipelineStatus
  volume_ : ℚ
  will_play_ : Bool
  is_muted_ : Bool
  media_source_ : Option String
  error : Option MediaError
  deriving DecidableEq, Repr

/-- The element as produced by the constructor `HTMLVideoElement::HTMLVideoElement`. -/
def initElement : VideoElement :=
  { ready_state := .HAVE_NOTHING
    autoplay := false
    loop := false
    pipeline_status_ := .Initializing
    volume_ := 1
    will_play_ := false
    is_muted_ := false
    media_source_ := none
    error := none }

/-- The `DCHECK` at the top of `OnReadyStateChanged`: a MediaSource is
attached iff the new ready state is not `HAVE_NOTHING`. -/
def readyStateDCheckOk (st : VideoElement) (n : MediaReadyState) : Bool :=
  match st.media_source_ with
  | some _ => decide (n ≠ .HAVE_NOTHING)
  | none => decide (n = .HAVE_NOTHING)

/-- Events scheduled by `OnReadyStateChanged` when the ready state actually
changes from `cur` to `n` (the four threshold checks, in source order,
followed by the unconditional `ReadyStateChange`). -/
def readyStateEvents (cur n : MediaReadyState) : List EventType :=
  (if cur < .HAVE_METADATA ∧ .HAVE_METADATA ≤ n then [EventType.LoadedMetaData] else [])
    ++ (if cur < .HAVE_CURRENT_DATA ∧ .HAVE_CURRENT_DATA ≤ n then [EventType.LoadedData] else [])
    ++ (if cur < .HAVE_ENOUGH_DATA ∧ .HAVE_ENOUGH_DATA ≤ n then [EventType.CanPlay] else [])
    ++ (if .HAVE_FUTURE_DATA ≤ cur ∧ n < .HAVE_FUTURE_DATA ∧ n ≠ .HAVE_NOTHING
        then [EventType.Waiting] else [])
    ++ [EventType.ReadyStateChange]

/-- `HTMLVideoElement::OnReadyStateChanged` (release behaviour; the `DCHECK`
is modelled separately by `readyStateDCheckOk`): returns the new state and
the scheduled events in order. -/
def OnReadyStateChanged (st : VideoElement) (n : MediaReadyState) :
    VideoElement × List EventType :=
  if st.ready_state = n then (st, [])
  else ({ st with ready_state := n }, readyStateEvents st.ready_state n)

/-- Events scheduled by the `switch` in `OnPipelineStatusChanged`, given the
previous status `prev` and the new (different) status `s`. -/
def pipelineEvents (prev s : PipelineStatus) : List EventType :=
  match s with
  | .Initializing => [EventType.Emptied]
  | .Playing =>
      (if prev = .Paused then [EventType.Play]
       else if prev = .SeekingPlay then [EventType.Seeked]
       else []) ++ [EventType.Playing]
  | .Paused =>
      if prev = .Playing ∨ prev = .Stalled then [EventType.Pause]
      else if prev = .SeekingPause then [EventType.Seeked]
      else []
  | .Stalled => []
  | .SeekingPlay => [EventType.Seeking]
  | .SeekingPause => [EventType.Seeking]
  | .Ended =>
      (if prev = .Playing then [EventType.Pause]
       else if prev = .SeekingPlay ∨ prev = .SeekingPause then [EventType.Seeked]
       else []) ++ [EventType.Ended]
  | .Errored => [EventType.Error]

/-- The `DCHECK`s inside the `Playing` and `Paused` branches of
`OnPipelineStatusChanged`: whether the assertion reached on a transition
from `prev` to `s` holds (`true` when no assertion is reached). -/
def pipelineDCheckOk (prev s : PipelineStatus) : Bool :=
  if s = prev then true
  else
    match s with
    | .Playing =>
        if prev = .Paused then true
        else if prev = .SeekingPlay then true
        else decide (prev = .Stalled) || decide (prev = .Initializing)
    | .Paused =>
        if prev = .Playing ∨ prev = .Stalled then true
        else if prev = .SeekingPause then true
        else decide (prev = .Initializing)
    | _ => true

/-- `HTMLVideoElement::OnPipelineStatusChanged` (release behaviour): on a
repeated identical status only the seeking statuses re-fire `Seeking`;
otherwise dispatch on the new status, set a generic decode error on
`Errored` if none is recorded, and commit the new status. -/
def OnPipelineStatusChanged (st : VideoElement) (s : PipelineStatus) :
    VideoElement × List EventType :=
  if s = st.pipeline_status_ then
    (st, if s = .SeekingPlay ∨ s = .SeekingPause then [EventType.Seeking] else [])
  else
    let err : Option MediaError :=
      if s = .Errored ∧ st.error = none
      then some ⟨MEDIA_ERR_DECODE, "Unknown media error"⟩
      else st.error
    ({ st with pipeline_status_ := s, error := err },
      pipelineEvents st.pipeline_status_ s)

/-- `HTMLVideoElement::OnMediaError`: always schedules `Error`; sets the
error record only when empty. `msg` stands for `GetErrorString(status)`
computed by the collaborator. -/
def OnMediaError (st : VideoElement) (msg : String) :
    VideoElement × List EventType :=
  ({ st with error := if st.error = none
                      then some ⟨MEDIA_ERR_DECODE, msg⟩ else st.error },
    [EventType.Error])

/-- `HTMLVideoElement::Load`: clear the error; when a source is attached,
close it (command), detach it, reset ready state and pipeline status through
the two transition functions, and clear the will-play latch. -/
def Load (st : VideoElement) : VideoElement × List EventType × List Cmd :=
  let st0 := { st with error := none }
  match st.media_source_ with
  | none => (st0, [], [])
  | some _ =>
      let st1 := { st0 with media_source_ := none }
      let r2 := OnReadyStateChanged st1 .HAVE_NOTHING
      let r3 := OnPipelineStatusChanged r2.1 .Initializing
      ({ r3.1 with will_play_ := false }, r2.2 ++ r3.2, [Cmd.closeSource])

/-- Outcome of `SetSource`: the new element state, the events and commands
emitted (in order), and the thrown DOM exception code if any. -/
structure SetSourceOut where
  st : VideoElement
  events : List EventType
  cmds : List Cmd
  err : Option Nat
  deriving DecidableEq, Repr

/-- DOM exception code used by `SetSource` (`NotSupportedError` from
`exception_code.h`, enumerator value 6). -/
def NotSupportedError : Nat := 6

/-- `HTMLVideoElement::SetSource`. `registry` models the
`MediaSource::FindMediaSource` url registry: whether a MediaSource is
registered under the url. -/
def SetSource (registry : String → Bool) (st : VideoElement) (src : String) :
    SetSourceOut :=
  let r1 := Load st
  let st1 := r1.1
  if src = "" then ⟨st1, r1.2.1, r1.2.2, none⟩
  else if registry src then
    let st2 := { st1 with media_source_ := some src }
    let playCmds := if st2.autoplay ∨ st2.will_play_ then [Cmd.pipelinePlay] else []
    ⟨st2, r1.2.1,
      r1.2.2 ++ [Cmd.openSource,
        Cmd.setPipelineVolume (if st2.is_muted_ then 0 else st2.volume_)] ++ playCmds,
      none⟩
  else ⟨st1, r1.2.1, r1.2.2, some NotSupportedError⟩

/-- `HTMLVideoElement::Play`: delegate to the pipeline when a source is
attached, otherwise set the will-play latch. -/
def Play (st : VideoElement) : VideoElement × List Cmd :=
  match st.media_source_ with
  | some _ => (st, [Cmd.pipelinePlay])
  | none => ({ st with will_play_ := true }, [])

/-- `HTMLVideoElement::Pause`: delegate to the pipeline when a source is
attached, otherwise clear the will-play latch. -/
def Pause (st : VideoElement) : VideoElement × List Cmd :=
  match st.media_source_ with
  | some _ => (st, [Cmd.pipelinePause])
  | none => ({ st with will_play_ := false }, [])

/-- `HTMLVideoElement::SetVolume`: store the volume (no clamping), and push
the mute-aware volume to the pipeline when a source is attached. -/
def SetVolume (st : VideoElement) (v : ℚ) : VideoElement × List Cmd :=
  let st1 := { st with volume_ := v }
  (st1,
    match st1.media_source_ with
    | some _ => [Cmd.setPipelineVolume (if st1.is_muted_ then 0 else v)]
    | none => [])

/-- `HTMLVideoElement::SetMuted`: store the flag, and push the mute-aware
volume to the pipeline when a source is attached. -/
def SetMuted (st : VideoElement) (m : Bool) : VideoElement × List Cmd :=
  let st1 := { st with is_muted_ := m }
  (st1,
    match st1.media_source_ with
    | some _ => [Cmd.setPipelineVolume (if m then 0 else st1.volume_)]
    | none => [])

/-- One invocation of a state-mutating public operation or pipeline
callback of the element. -/
inductive Op
  | load
  | play
  | pause
  | setSource (src : String)
  | setVolume (v : ℚ)
  | setMuted (m : Bool)
  | onReadyState (n : MediaReadyState)
  | onPipelineStatus (s : PipelineStatus)
  | onMediaError (msg : String)

/-- Apply one operation to the element state. The ready-state callback is
guarded by its `DCHECK` precondition: a violating call is fatal in the
source and never completes, so it contributes no state change here. -/
def applyOp (registry : String → Bool) (st : VideoElement) : Op → VideoElement
  | .load => (Load st).1
  | .play => (Play st).1
  | .pause => (Pause st).1
  | .setSource src => (SetSource registry st src).st
  | .setVolume v => (SetVolume st v).1
  | .setMuted m => (SetMuted st m).1
  | .onReadyState n =>
      if readyStateDCheckOk st n then (OnReadyStateChanged st n).1 else st
  | .onPipelineStatus s => (OnPipelineStatusChanged st s).1
  | .onMediaError msg => (OnMediaError st msg).1

/-- Apply a sequence of operations in order, starting from `st`. -/
def applyOps (registry : String → Bool) (st : VideoElement) (ops : List Op) :
    VideoElement :=
  ops.foldl (applyOp registry) st

/-- One error-producing call: a media-error callback or a pipeline status
report of `Errored`. -/
inductive ErrCall
  | mediaErr (msg : String)
  | statusErrored

/-- State effect of one error-producing call. -/
def execErrCall (st : VideoElement) : ErrCall → VideoElement
  | .mediaErr msg => (OnMediaError st msg).1
  | .statusErrored => (OnPipelineStatusChanged st .Errored).1

/-- The attachment/ready-state correspondence in the direction the code
maintains: a detached element has ready state `HAVE_NOTHING`. -/
def srcInv (st : VideoElement) : Prop :=
  st.media_source_ = none → st.ready_state = .HAVE_NOTHING

/-! ### Helper lemmas about `Load` -/

theorem Load_detached (st : VideoElement) (h : st.media_source_ = none) :
    Load st = ({ st with error := none }, [], []) := by
  simp [Load, h]

theorem Load_attached_fst (st : VideoElement) (u : String)
    (h : st.media_source_ = some u) :
    (Load st).1 =
      { st with error := none, media_source_ := none,
                ready_state := .HAVE_NOTHING, pipeline_status_ := .Initializing,
                will_play_ := false } := by
  obtain ⟨rs, ap, lp, ps, vol, wp, mu, ms, er⟩ := st
  simp only [VideoElement.media_source_] at h
  subst h
  simp only [Load, OnReadyStateChanged, OnPipelineStatusChanged]
  split
  · split <;> simp_all
  · split <;> simp_all

theorem Load_attached_cmds (st : VideoElement) (u : String)
    (h : st.media_source_ = some u) :
    (Load st).2.2 = [Cmd.closeSource] := by
  simp [Load, h]

theorem Load_media (st : VideoElement) : (Load st).1.media_source_ = none := by
  match h : st.media_source_ with
  | none => rw [Load_detached st h]; exact h
  | some u => rw [Load_attached_fst st u h]

theorem Load_error (st : VideoElement) : (Load st).1.error = none := by
  match h : st.media_source_ with
  | none => rw [Load_detached st h]
  | some u => rw [Load_attached_fst st u h]

theorem Load_ready (st : VideoElement) (hinv : srcInv st) :
    (Load st).1.ready_state = .HAVE_NOTHING := by
  match h : st.media_source_ with
  | none => rw [Load_detached st h]; exact hinv h
  | some u => rw [Load_attached_fst st u h]

theorem Load_volume (st : VideoElement) : (Load st).1.volume_ = st.volume_ := by
  match h : st.media_source_ with
  | none => rw [Load_detached st h]
  | some u => rw [Load_attached_fst st u h]

theorem Load_cmds_no_play (st : VideoElement) :
    Cmd.pipelinePlay ∉ (Load st).2.2 := by
  match h : st.media_source_ with
  | none => rw [Load_detached st h]; simp
  | some u => rw [Load_attached_cmds st u h]; simp

/-! ### Claim theorems -/

/-- C1: a pipeline-status transition to `Playing` schedules exactly
`[Play, Playing]` from `Paused`, exactly `[Seeked, Playing]` from
`SeekingPlay`, and exactly `[Playing]` from `Stalled` or `Initializing`;
in every case the status is committed to `Playing` afterwards. -/
theorem C1_to_playing (st : VideoElement) :
    (st.pipeline_status_ = .Paused →
      OnPipelineStatusChanged st .Playing =
        ({ st with pipeline_status_ := .Playing },
          [EventType.Play, EventType.Playing])) ∧
    (st.pipeline_status_ = .SeekingPlay →
      OnPipelineStatusChanged st .Playing =
        ({ st with pipeline_status_ := .Playing },
          [EventType.Seeked, EventType.Playing])) ∧
    ((st.pipeline_status_ = .Stalled ∨ st.pipeline_status_ = .Initializing) →
      OnPipelineStatusChanged st .Playing =
        ({ st with pipeline_status_ := .Playing }, [EventType.Playing])) := by
  refine ⟨fun h => ?_, fun h => ?_, fun h => ?_⟩
  · simp [OnPipelineStatusChanged, pipelineEvents, h]
  · simp [OnPipelineStatusChanged, pipelineEvents, h]
  · rcases h with h | h <;> simp [OnPipelineStatusChanged, pipelineEvents, h]

theorem C1_to_playing_witness :
    OnPipelineStatusChanged { initElement with pipeline_status_ := .Paused }
        .Playing =
      ({ initElement with pipeline_status_ := .Playing },
        [EventType.Play, EventType.Playing]) :=
  (C1_to_playing { initElement with pipeline_status_ := .Paused }).1 rfl

/-- C3: reporting the current status again schedules nothing and changes no
state, except for the two seeking statuses, which re-fire `Seeking` and still
change nothing; in particular two consecutive `SeekingPlay` reports schedule
`Seeking` twice and the second leaves the state unchanged. -/
theorem C3_repeat_status (st : VideoElement) :
    (∀ s, st.pipeline_status_ = s →
      OnPipelineStatusChanged st s =
        (st, if s = .SeekingPlay ∨ s = .SeekingPause
             then [EventType.Seeking] else [])) ∧
    ((OnPipelineStatusChanged st .SeekingPlay).2 = [EventType.Seeking] ∧
      OnPipelineStatusChanged (OnPipelineStatusChanged st .SeekingPlay).1
          .SeekingPlay =
        ((OnPipelineStatusChanged st .SeekingPlay).1, [EventType.Seeking])) := by
  constructor
  · intro s h
    simp [OnPipelineStatusChanged, h]
  · by_cases h : st.pipeline_status_ = .SeekingPlay
    · simp [OnPipelineStatusChanged, pipelineEvents, h]
    · simp [OnPipelineStatusChanged, pipelineEvents, h, Ne.symm h]

theorem C3_repeat_status_witness :
    (OnPipelineStatusChanged initElement .SeekingPlay).2 = [EventType.Seeking] ∧
    OnPipelineStatusChanged (OnPipelineStatusChanged initElement .SeekingPlay).1
        .SeekingPlay =
      ((OnPipelineStatusChanged initElement .SeekingPlay).1,
        [EventType.Seeking]) ∧
    OnPipelineStatusChanged initElement .Initializing = (initElement, []) := by
  refine ⟨(C3_repeat_status initElement).2.1, (C3_repeat_status initElement).2.2, ?_⟩
  simpa using (C3_repeat_status initElement).1 .Initializing rfl

/-- C10: the assertions inside `OnPipelineStatusChanged` hold exactly when a
transition to `Playing` comes from `Paused`, `SeekingPlay`, `Stalled` or
`Initializing`, and a transition to `Paused` comes from `Playing`, `Stalled`,
`SeekingPause` or `Initializing`; for an unexpected previous status such as
`Ended → Paused` the assertion is violated and no `Pause`/`Seeked` event is
scheduled. -/
theorem C10_pipeline_dchecks (st : VideoElement) :
    (∀ prev : PipelineStatus, prev ≠ .Playing →
      (pipelineDCheckOk prev .Playing = true ↔
        (prev = .Paused ∨ prev = .SeekingPlay ∨ prev = .Stalled ∨
          prev = .Initializing))) ∧
    (∀ prev : PipelineStatus, prev ≠ .Paused →
      (pipelineDCheckOk prev .Paused = true ↔
        (prev = .Playing ∨ prev = .Stalled ∨ prev = .SeekingPause ∨
          prev = .Initializing))) ∧
    pipelineDCheckOk .Ended .Paused = false ∧
    (st.pipeline_status_ = .Ended →
      (OnPipelineStatusChanged st .Paused).2 = []) := by
  refine ⟨by decide, by decide, by decide, fun h => ?_⟩
  simp [OnPipelineStatusChanged, pipelineEvents, h]

theorem C10_pipeline_dchecks_witness :
    pipelineDCheckOk .Paused .Playing = true ∧
    (OnPipelineStatusChanged { initElement with pipeline_status_ := .Ended }
        .Paused).2 = [] :=
  ⟨((C10_pipeline_dchecks initElement).1 .Paused (by decide)).mpr (Or.inl rfl),
    (C10_pipeline_dchecks
      { initElement with pipeline_status_ := .Ended }).2.2.2 rfl⟩

/-- C2: for a ready-state change with the attachment precondition satisfied,
`LoadedMetaData`/`LoadedData`/`CanPlay` are scheduled iff the value crosses
upward past `HAVE_METADATA`/`HAVE_CURRENT_DATA`/`HAVE_ENOUGH_DATA`, `Waiting`
iff it crosses downward past `HAVE_FUTURE_DATA` without reaching
`HAVE_NOTHING`; the events appear at most once each, in the fixed threshold
order, `ReadyStateChange` is always last, and the new value is committed. -/
theorem C2_ready_state_transition (st : VideoElement) (n : MediaReadyState)
    (hne : st.ready_state ≠ n) (hpre : readyStateDCheckOk st n = true) :
    (OnReadyStateChanged st n).1 = { st with ready_state := n } ∧
    (OnReadyStateChanged st n).2.Sublist
      [EventType.LoadedMetaData, EventType.LoadedData, EventType.CanPlay,
        EventType.Waiting, EventType.ReadyStateChange] ∧
    (EventType.LoadedMetaData ∈ (OnReadyStateChanged st n).2 ↔
      (st.ready_state < .HAVE_METADATA ∧ .HAVE_METADATA ≤ n)) ∧
    (EventType.LoadedData ∈ (OnReadyStateChanged st n).2 ↔
      (st.ready_state < .HAVE_CURRENT_DATA ∧ .HAVE_CURRENT_DATA ≤ n)) ∧
    (EventType.CanPlay ∈ (OnReadyStateChanged st n).2 ↔
      (st.ready_state < .HAVE_ENOUGH_DATA ∧ .HAVE_ENOUGH_DATA ≤ n)) ∧
    (EventType.Waiting ∈ (OnReadyStateChanged st n).2 ↔
      (.HAVE_FUTURE_DATA ≤ st.ready_state ∧ n < .HAVE_FUTURE_DATA ∧
        n ≠ .HAVE_NOTHING)) ∧
    (OnReadyStateChanged st n).2.getLast? = some EventType.ReadyStateChange := by
  have h1 : (OnReadyStateChanged st n).1 = { st with ready_state := n } := by
    simp [OnReadyStateChanged, hne]
  have h2 : (OnReadyStateChanged st n).2 = readyStateEvents st.ready_state n := by
    simp [OnReadyStateChanged, hne]
  rw [h1, h2]
  refine ⟨rfl, ?_⟩
  clear h1 h2 hpre
  revert hne
  generalize st.ready_state = cur
  cases cur <;> cases n <;> decide

theorem C2_ready_state_transition_witness :
    (OnReadyStateChanged { initElement with media_source_ := some "u" }
        .HAVE_ENOUGH_DATA).2.getLast? = some EventType.ReadyStateChange :=
  (C2_ready_state_transition { initElement with media_source_ := some "u" }
    .HAVE_ENOUGH_DATA (by decide) (by decide)).2.2.2.2.2.2

theorem execErrCall_keeps_error (st : VideoElement) (e : MediaError)
    (c : ErrCall) (h : st.error = some e) : (execErrCall st c).error = some e := by
  cases c with
  | mediaErr msg => simp [execErrCall, OnMediaError, h]
  | statusErrored =>
      simp only [execErrCall, OnPipelineStatusChanged]
      split
      · exact h
      · simp [h]

theorem errCalls_keep_error (e : MediaError) (calls : List ErrCall) :
    ∀ st : VideoElement, st.error = some e →
      (calls.foldl execErrCall st).error = some e := by
  induction calls with
  | nil => exact fun st h => h
  | cons c rest ih =>
      exact fun st h => ih _ (execErrCall_keeps_error st e c h)

/-- C6: error recording is first-write-wins. `OnMediaError` always schedules
`Error` and sets the record only when empty; a pipeline transition to
`Errored` schedules `Error` and sets a generic decode error only when no
error is recorded; and no sequence of these calls ever overwrites a recorded
error. -/
theorem C6_first_error_wins (st : VideoElement) :
    (∀ msg, (OnMediaError st msg).2 = [EventType.Error]) ∧
    (∀ msg e, st.error = some e → (OnMediaError st msg).1 = st) ∧
    (∀ msg, st.error = none →
      (OnMediaError st msg).1 =
        { st with error := some ⟨MEDIA_ERR_DECODE, msg⟩ }) ∧
    (st.pipeline_status_ ≠ .Errored →
      (OnPipelineStatusChanged st .Errored).2 = [EventType.Error] ∧
      (∀ e, st.error = some e →
        (OnPipelineStatusChanged st .Errored).1.error = some e) ∧
      (st.error = none →
        (OnPipelineStatusChanged st .Errored).1.error =
          some ⟨MEDIA_ERR_DECODE, "Unknown media error"⟩)) ∧
    (∀ e, st.error = some e → ∀ calls : List ErrCall,
      (calls.foldl execErrCall st).error = some e) := by
  refine ⟨?_, ?_, ?_, fun hne => ⟨?_, ?_, ?_⟩, ?_⟩
  · intro msg; simp [OnMediaError]
  · intro msg e h; simp only [OnMediaError, h]; simp; rw [← h]
  · intro msg h; simp [OnMediaError, h]
  · simp [OnPipelineStatusChanged, pipelineEvents, Ne.symm hne]
  · intro e h; simp [OnPipelineStatusChanged, Ne.symm hne, h]
  · intro h; simp [OnPipelineStatusChanged, Ne.symm hne, h]
  · exact fun e h calls => errCalls_keep_error e calls st h

theorem C6_first_error_wins_witness :
    (OnMediaError { initElement with error := some ⟨3, "first"⟩ } "second").1 =
      { initElement with error := some ⟨3, "first"⟩ } ∧
    ([ErrCall.mediaErr "second", ErrCall.statusErrored].foldl execErrCall
      { initElement with error := some ⟨3, "first"⟩ }).error = some ⟨3, "first"⟩ :=
  ⟨(C6_first_error_wins { initElement with error := some ⟨3, "first"⟩ }).2.1
      "second" ⟨3, "first"⟩ rfl,
    (C6_first_error_wins { initElement with error := some ⟨3, "first"⟩ }).2.2.2.2
      ⟨3, "first"⟩ rfl [ErrCall.mediaErr "second", ErrCall.statusErrored]⟩

/-- C7 counterexample: `SetSource` is a public operation distinct from
`Load`, and calling it (here with the empty url) on an element holding a
recorded error clears that error — so `Load` is not the only public
operation that clears a previously recorded error. -/
theorem C7_counterexample :
    ({ initElement with error := some ⟨3, "boom"⟩ } : VideoElement).error ≠ none ∧
    (SetSource (fun _ => false)
      { initElement with error := some ⟨3, "boom"⟩ } "").st.error = none := by
  constructor
  · simp [initElement]
  · rfl

/-- C7 (amended): `Load` always clears the error record; when a source is
attached it additionally closes it (one `closeSource` command), detaches it,
resets the ready state to `HAVE_NOTHING` and the pipeline status to
`Initializing`, and clears the will-play latch; when no source is attached
it changes nothing except clearing the error. The only public operations
that clear a previously recorded error are `Load` and `SetSource`, which
begins by performing `Load`; every other operation preserves a recorded
error. -/
theorem C7_amended_load_clears (st : VideoElement) :
    (Load st).1.error = none ∧
    (st.media_source_ = none → Load st = ({ st with error := none }, [], [])) ∧
    (∀ u, st.media_source_ = some u →
      (Load st).1 =
        { st with error := none, media_source_ := none,
                  ready_state := .HAVE_NOTHING,
                  pipeline_status_ := .Initializing, will_play_ := false } ∧
      (Load st).2.2 = [Cmd.closeSource]) ∧
    (∀ registry : String → Bool, ∀ src,
      (SetSource registry st src).st.error = none) ∧
    (∀ e, st.error = some e →
      (Play st).1.error = some e ∧
      (Pause st).1.error = some e ∧
      (∀ v, (SetVolume st v).1.error = some e) ∧
      (∀ m, (SetMuted st m).1.error = some e) ∧
      (∀ n, (OnReadyStateChanged st n).1.error = some e) ∧
      (∀ s, (OnPipelineStatusChanged st s).1.error = some e) ∧
      (∀ msg, (OnMediaError st msg).1.error = some e)) := by
  refine ⟨Load_error st, fun h => Load_detached st h,
    fun u h => ⟨Load_attached_fst st u h, Load_attached_cmds st u h⟩,
    ?_, ?_⟩
  · intro registry src
    by_cases h1 : src = ""
    · simp only [SetSource, if_pos h1]; exact Load_error st
    · cases h2 : registry src
      · simp only [SetSource, if_neg h1, h2, Bool.false_eq_true, if_false]
        exact Load_error st
      · simp only [SetSource, if_neg h1, h2, if_true]
        exact Load_error st
  · intro e h
    refine ⟨?_, ?_, fun v => h, fun m => h, fun n => ?_, fun s => ?_, fun msg => ?_⟩
    · cases hms : st.media_source_ <;> simp [Play, hms, h]
    · cases hms : st.media_source_ <;> simp [Pause, hms, h]
    · simp only [OnReadyStateChanged]
      split
      · exact h
      · exact h
    · simp only [OnPipelineStatusChanged]
      split
      · exact h
      · simp [h]
    · simp [OnMediaError, h]

theorem C7_amended_load_clears_witness :
    (Load { initElement with error := some ⟨3, "boom"⟩ }).1.error = none ∧
    (OnMediaError { initElement with error := some ⟨3, "boom"⟩ } "x").1.error =
      some ⟨3, "boom"⟩ :=
  ⟨(C7_amended_load_clears { initElement with error := some ⟨3, "boom"⟩ }).1,
    ((C7_amended_load_clears { initElement with error := some ⟨3, "boom"⟩ }).2.2.2.2
      ⟨3, "boom"⟩ rfl).2.2.2.2.2.2 "x"⟩

/-- C5: `SetSource` first performs `Load`; an empty url succeeds and leaves
the element sourceless; an unresolved non-empty url fails with
`NotSupportedError`, sets no element-level error, and leaves the element
sourceless with ready state `HAVE_NOTHING`; a resolvable url attaches the
source, pushes the mute-aware volume, and issues a pipeline play command iff
autoplay or the will-play latch is set. -/
theorem C5_set_source (registry : String → Bool) (st : VideoElement)
    (hinv : srcInv st) :
    (SetSource registry st "" =
        ⟨(Load st).1, (Load st).2.1, (Load st).2.2, none⟩ ∧
      (SetSource registry st "").st.media_source_ = none) ∧
    (∀ url, url ≠ "" → registry url = false →
      SetSource registry st url =
        ⟨(Load st).1, (Load st).2.1, (Load st).2.2, some NotSupportedError⟩ ∧
      (SetSource registry st url).st.media_source_ = none ∧
      (SetSource registry st url).st.error = none ∧
      (SetSource registry st url).st.ready_state = .HAVE_NOTHING) ∧
    (∀ url, url ≠ "" → registry url = true →
      (SetSource registry st url).st =
        { (Load st).1 with media_source_ := some url } ∧
      (SetSource registry st url).err = none ∧
      (SetSource registry st url).cmds =
        (Load st).2.2 ++
          [Cmd.openSource,
            Cmd.setPipelineVolume
              (if (Load st).1.is_muted_ then 0 else (Load st).1.volume_)] ++
          (if (Load st).1.autoplay ∨ (Load st).1.will_play_
           then [Cmd.pipelinePlay] else []) ∧
      (Cmd.pipelinePlay ∈ (SetSource registry st url).cmds ↔
        ((Load st).1.autoplay ∨ (Load st).1.will_play_))) := by
  have hLcmds := Load_cmds_no_play st
  refine ⟨?_, ?_, ?_⟩
  · have he : SetSource registry st "" =
        ⟨(Load st).1, (Load st).2.1, (Load st).2.2, none⟩ := by
      simp [SetSource]
    exact ⟨he, by rw [he]; exact Load_media st⟩
  · intro url hurl hreg
    have he : SetSource registry st url =
        ⟨(Load st).1, (Load st).2.1, (Load st).2.2, some NotSupportedError⟩ := by
      simp [SetSource, hurl, hreg]
    refine ⟨he, ?_, ?_, ?_⟩ <;> rw [he]
    · exact Load_media st
    · exact Load_error st
    · exact Load_ready st hinv
  · intro url hurl hreg
    have he : SetSource registry st url =
        ⟨{ (Load st).1 with media_source_ := some url }, (Load st).2.1,
          (Load st).2.2 ++
            [Cmd.openSource,
              Cmd.setPipelineVolume
                (if (Load st).1.is_muted_ then 0 else (Load st).1.volume_)] ++
            (if (Load st).1.autoplay ∨ (Load st).1.will_play_
             then [Cmd.pipelinePlay] else []), none⟩ := by
      simp [SetSource, hurl, hreg]
    refine ⟨by rw [he], by rw [he], by rw [he], ?_⟩
    rw [he]
    by_cases hc : ((Load st).1.autoplay = true ∨ (Load st).1.will_play_ = true)
    · rw [if_pos hc]; simp [hLcmds, hc]
    · rw [if_neg hc]; simp [hLcmds, hc]

theorem C5_set_source_witness :
    (SetSource (fun _ => false) initElement "bad").st.media_source_ = none ∧
    (SetSource (fun _ => false) initElement "bad").st.ready_state =
      .HAVE_NOTHING ∧
    (SetSource (fun _ => false) initElement "bad").err =
      some NotSupportedError := by
  have T := (C5_set_source (fun _ => false) initElement (fun _ => rfl)).2.1
    "bad" (by decide) rfl
  exact ⟨T.2.1, T.2.2.2, by rw [T.1]⟩

/-- C8: while no source is attached `Play` issues no pipeline command and
sets the will-play latch, `Pause` clears it, and a subsequent successful
`SetSource` issues the pipeline play command exactly once because of the
latch. -/
theorem C8_deferred_play (registry : String → Bool) (st : VideoElement)
    (url : String) (hsrc : st.media_source_ = none) (hurl : url ≠ "")
    (hreg : registry url = true) :
    Play st = ({ st with will_play_ := true }, []) ∧
    Pause st = ({ st with will_play_ := false }, []) ∧
    (SetSource registry (Play st).1 url).err = none ∧
    (SetSource registry (Play st).1 url).cmds.count Cmd.pipelinePlay = 1 := by
  have hplay : Play st = ({ st with will_play_ := true }, []) := by
    simp [Play, hsrc]
  have hpause : Pause st = ({ st with will_play_ := false }, []) := by
    simp [Pause, hsrc]
  have hsrc' : (Play st).1.media_source_ = none := by rw [hplay]; exact hsrc
  have hload := Load_detached (Play st).1 hsrc'
  refine ⟨hplay, hpause, ?_, ?_⟩
  · simp [SetSource, hurl, hreg, hload]
  · rw [hplay] at hload
    simp [SetSource, hurl, hreg, hload, hplay, List.count_cons, List.count_nil]

theorem C8_deferred_play_witness :
    (SetSource (fun _ => true) (Play initElement).1 "u").cmds.count
      Cmd.pipelinePlay = 1 :=
  (C8_deferred_play (fun _ => true) initElement "u" rfl (by decide) rfl).2.2.2

theorem applyOp_srcInv (registry : String → Bool) (st : VideoElement) (op : Op)
    (h : srcInv st) : srcInv (applyOp registry st op) := by
  cases op with
  | load => exact fun _ => Load_ready st h
  | play =>
      cases hms : st.media_source_ with
      | none => intro hm; simp only [applyOp, Play, hms]; exact h hms
      | some u => intro hm; simp only [applyOp, Play, hms] at hm; exact absurd hm (by simp)
  | pause =>
      cases hms : st.media_source_ with
      | none => intro hm; simp only [applyOp, Pause, hms]; exact h hms
      | some u => intro hm; simp only [applyOp, Pause, hms] at hm; exact absurd hm (by simp)
  | setSource src =>
      intro hm
      simp only [applyOp, SetSource]
      split
      · exact Load_ready st h
      · split
        · exact Load_ready st h
        · exact Load_ready st h
  | setVolume v => exact fun hm => h hm
  | setMuted m => exact fun hm => h hm
  | onReadyState n =>
      by_cases hd : readyStateDCheckOk st n = true
      · simp only [applyOp, if_pos hd]
        by_cases he : st.ready_state = n
        · simp only [OnReadyStateChanged, if_pos he]; exact h
        · simp only [OnReadyStateChanged, if_neg he]
          intro hm
          have hm' : st.media_source_ = none := hm
          simp only [readyStateDCheckOk, hm'] at hd
          simpa using hd
      · simp only [applyOp, if_neg hd]; exact h
  | onPipelineStatus s =>
      simp only [applyOp, OnPipelineStatusChanged]
      split
      · exact h
      · exact fun hm => h hm
  | onMediaError msg => exact fun hm => h hm

theorem applyOps_srcInv (registry : String → Bool) (ops : List Op) :
    ∀ st : VideoElement, srcInv st → srcInv (applyOps registry st ops) := by
  induction ops with
  | nil => exact fun st h => h
  | cons op rest ih =>
      intro st h
      exact ih _ (applyOp_srcInv registry st op h)

/-- C4 counterexample: the state reached from a fresh element by the single
public operation `SetSource "u"` (with "u" resolvable) has a MediaSource
attached while the ready state is still `HAVE_NOTHING`, refuting the claimed
iff between ready state `HAVE_NOTHING` and absence of an attached source. -/
theorem C4_counterexample :
    (applyOps (fun _ => true) initElement [Op.setSource "u"]).media_source_ =
      some "u" ∧
    (applyOps (fun _ => true) initElement [Op.setSource "u"]).ready_state =
      .HAVE_NOTHING := by
  constructor <;> rfl

/-- C4 (amended): in every state reachable by the public operations and the
precondition-respecting pipeline callbacks from a fresh element, if no
MediaSource is attached then the ready state is `HAVE_NOTHING` (the converse
fails right after a successful `SetSource`); and the `OnReadyStateChanged`
precondition is violated exactly when a source is attached but the new value
is `HAVE_NOTHING`, or none is attached but the new value is not. -/
theorem C4_amended_invariant (registry : String → Bool) (ops : List Op) :
    ((applyOps registry initElement ops).media_source_ = none →
      (applyOps registry initElement ops).ready_state = .HAVE_NOTHING) ∧
    (∀ (st : VideoElement) (n : MediaReadyState),
      readyStateDCheckOk st n = false ↔
        ((st.media_source_ ≠ none ∧ n = .HAVE_NOTHING) ∨
          (st.media_source_ = none ∧ n ≠ .HAVE_NOTHING))) := by
  constructor
  · exact applyOps_srcInv registry ops initElement (fun _ => rfl)
  · intro st n
    cases hms : st.media_source_ <;> simp [readyStateDCheckOk, hms]

theorem C4_amended_invariant_witness :
    (applyOps (fun _ => true) initElement [Op.load]).ready_state =
      .HAVE_NOTHING ∧
    (readyStateDCheckOk initElement MediaReadyState.HAVE_METADATA = false ↔
      ((initElement.media_source_ ≠ none ∧
          MediaReadyState.HAVE_METADATA = MediaReadyState.HAVE_NOTHING) ∨
        (initElement.media_source_ = none ∧
          MediaReadyState.HAVE_METADATA ≠ MediaReadyState.HAVE_NOTHING))) :=
  ⟨(C4_amended_invariant (fun _ => true) [Op.load]).1 rfl,
    (C4_amended_invariant (fun _ => true) [Op.load]).2 initElement
      MediaReadyState.HAVE_METADATA⟩

theorem SetSource_volume (registry : String → Bool) (st : VideoElement)
    (src : String) : (SetSource registry st src).st.volume_ = st.volume_ := by
  simp only [SetSource]
  split
  · exact Load_volume st
  · split
    · exact Load_volume st
    · exact Load_volume st

theorem applyOp_volume_eq (registry : String → Bool) (st : VideoElement)
    (op : Op) :
    (applyOp registry st op).volume_ = st.volume_ ∨
      ∃ v, op = Op.setVolume v ∧ (applyOp registry st op).volume_ = v := by
  cases op with
  | load => exact Or.inl (Load_volume st)
  | play => left; cases hms : st.media_source_ <;> simp [applyOp, Play, hms]
  | pause => left; cases hms : st.media_source_ <;> simp [applyOp, Pause, hms]
  | setSource src => exact Or.inl (SetSource_volume registry st src)
  | setVolume v => exact Or.inr ⟨v, rfl, rfl⟩
  | setMuted m => exact Or.inl rfl
  | onReadyState n =>
      left
      by_cases hd : readyStateDCheckOk st n = true
      · simp only [applyOp, if_pos hd, OnReadyStateChanged]
        split
        · rfl
        · rfl
      · simp only [applyOp, if_neg hd]
  | onPipelineStatus s =>
      left
      simp only [applyOp, OnPipelineStatusChanged]
      split
      · rfl
      · rfl
  | onMediaError msg => exact Or.inl rfl

theorem applyOps_volume (registry : String → Bool) (ops : List Op) :
    ∀ st : VideoElement, 0 ≤ st.volume_ ∧ st.volume_ ≤ 1 →
      (∀ v : ℚ, Op.setVolume v ∈ ops → 0 ≤ v ∧ v ≤ 1) →
      0 ≤ (applyOps registry st ops).volume_ ∧
        (applyOps registry st ops).volume_ ≤ 1 := by
  induction ops with
  | nil => exact fun st h0 _ => h0
  | cons op rest ih =>
      intro st h0 hops
      have hstep : 0 ≤ (applyOp registry st op).volume_ ∧
          (applyOp registry st op).volume_ ≤ 1 := by
        rcases applyOp_volume_eq registry st op with he | ⟨v, hv, he⟩
        · rw [he]; exact h0
        · rw [he]; exact hops v (by rw [hv]; exact List.mem_cons_self _ _)
      exact ih _ hstep (fun v hv => hops v (List.mem_cons_of_mem _ hv))

/-- C9 counterexample: `SetVolume` stores its argument without clamping, so
`SetVolume 2` drives the stored volume outside the claimed 0.0–1.0 range. -/
theorem C9_counterexample :
    (SetVolume initElement 2).1.volume_ = 2 ∧
    ¬ ((SetVolume initElement 2).1.volume_ ≤ 1) := by
  refine ⟨rfl, ?_⟩
  show ¬ ((2 : ℚ) ≤ 1)
  norm_num

/-- C9 (amended): the stored volume is 1.0 and the muted flag false after
construction; `SetVolume` stores its argument unclamped, so the stored
volume stays within 0.0–1.0 for every operation sequence whose `SetVolume`
arguments all lie within 0.0–1.0 (no other operation changes it). -/
theorem C9_amended_volume :
    initElement.volume_ = 1 ∧ initElement.is_muted_ = false ∧
    ∀ (registry : String → Bool) (ops : List Op),
      (∀ v : ℚ, Op.setVolume v ∈ ops → 0 ≤ v ∧ v ≤ 1) →
      0 ≤ (applyOps registry initElement ops).volume_ ∧
        (applyOps registry initElement ops).volume_ ≤ 1 :=
  ⟨rfl, rfl, fun registry ops hops =>
    applyOps_volume registry ops initElement (by norm_num [initElement]) hops⟩

theorem C9_amended_volume_witness :
    0 ≤ (applyOps (fun _ => true) initElement [Op.setVolume (1/2)]).volume_ ∧
      (applyOps (fun _ => true) initElement [Op.setVolume (1/2)]).volume_ ≤ 1 :=
  C9_amended_volume.2.2 (fun _ => true) [Op.setVolume (1/2)] (by
    intro v hv
    rw [List.mem_singleton] at hv
    injection hv with h
    subst h
    norm_num)

end Shaka
